import Mathlib

/-!
Verification of the piper-tts-webapp voice-service orchestration layer.

The development shallowly embeds the two source modules:
  * `piper_python_wrapper.py` — the `PiperPythonWrapper` class (`WrapperState`
    plus the methods `load_voice`, `set_syn_config`, `set_use_cuda`,
    `get_use_cuda`, `synthesize_wav_from_string`, `is_voice_loaded`);
  * `app.py` — the HTTP handlers `api_status`, `api_load_model`,
    `api_generate`, `serve_audio` (modelled as pure functions of the wrapper
    state, the filesystem, the clock value `int(time.time())`, and the parsed
    request body).

Filesystem paths are strings.  The external Piper engine
(`PiperVoice.load` / `PiperVoice.synthesize_wav`) is an oracle parameter
(`Engine`); a loaded `PiperVoice` object is modelled as a record of the
arguments `PiperVoice.load` was invoked with plus an opaque engine payload.
The filesystem is an association list from canonical absolute paths to byte
lists; the process working directory is fixed to `/srv/app`.
-/

/-! ## Paths

Python's `pathlib.Path` resolves `.` and `..` components against the process
working directory when a file is opened or `exists()` is queried.  We model a
path as a string and canonicalise it before every filesystem access. -/

/-- The process working directory (the repository root the app is run from);
the concrete name is irrelevant, it only anchors relative paths. -/
def cwd : String := "/srv/app"

/-- Split a path string at every slash. -/
def splitSlashAux : List Char → List Char → List String
  | acc, [] => [String.mk acc.reverse]
  | acc, c :: rest =>
    if c = '/' then String.mk acc.reverse :: splitSlashAux [] rest
    else splitSlashAux (c :: acc) rest

def splitSlash (s : String) : List String := splitSlashAux [] s.data

/-- Normalise path components: drop empty and `.` components, let `..` pop
the previous component (clamped at the root, as POSIX does for `/..`). -/
def normComponents : List String → List String → List String
  | acc, [] => acc.reverse
  | acc, c :: rest =>
    if c = "" ∨ c = "." then normComponents acc rest
    else if c = ".." then normComponents (acc.drop 1) rest
    else normComponents (c :: acc) rest

def joinSlash : List String → String
  | [] => ""
  | [c] => c
  | c :: rest => c ++ "/" ++ joinSlash rest

/-- Canonical form of an absolute path. -/
def resolvePath (p : String) : String :=
  "/" ++ joinSlash (normComponents [] (splitSlash p))

/-- `True` when `p` begins with a slash, i.e. is absolute. -/
def isAbsolute (p : String) : Bool :=
  match p.data with
  | '/' :: _ => true
  | _ => false

/-- Canonical absolute path of a (possibly relative) path string, resolved
against the working directory — what the OS sees when the program opens `p`. -/
def absPath (p : String) : String :=
  if isAbsolute p then resolvePath p else resolvePath (cwd ++ "/" ++ p)

/-- `pathlib`'s `/` operator: `Path(dir) / rel`; an absolute right operand
replaces the left one. -/
def pathJoin (dir rel : String) : String :=
  if isAbsolute rel then rel else dir ++ "/" ++ rel

/-- `pre` is a string prefix of `s`. -/
def strHasPrefix (pre s : String) : Bool :=
  pre.data.isPrefixOf s.data

/-- Python's `str.strip()`: remove leading and trailing whitespace. -/
def pyStrip (s : String) : String :=
  String.mk (((s.data.dropWhile Char.isWhitespace).reverse.dropWhile
    Char.isWhitespace).reverse)

/-! ## Filesystem

An association list from canonical absolute paths to file contents (byte
lists).  Every operation canonicalises the path it is given, mirroring the
OS-level resolution that `open`, `Path.exists` and `send_file` perform. -/

abbrev File := List Nat

abbrev FS := List (String × File)

/-- Create or overwrite the file at `p`. -/
def FS.write (fs : FS) (p : String) (c : File) : FS :=
  (absPath p, c) :: fs.filter (fun entry => entry.1 != absPath p)

/-- Contents of the file at `p`, when it exists. -/
def FS.read (fs : FS) (p : String) : Option File :=
  (fs.find? (fun entry => entry.1 == absPath p)).map Prod.snd

/-- `Path(p).exists()`. -/
def FS.existsAt (fs : FS) (p : String) : Bool :=
  (FS.read fs p).isSome

/-! ## The Piper engine (external collaborator)

`piper.PiperVoice` and `piper.SynthesisConfig` come from the external `piper`
package.  `SynthesisConfig` is the value object of tunable synthesis
parameters (floats are modelled as rationals; no claim computes with them).
The engine itself is an oracle: `loadVoice` models `PiperVoice.load` (its
result is an opaque payload, or an error — e.g. for a nonexistent model
file), and `synthWav` models `PiperVoice.synthesize_wav` writing into the
open wave container (on failure it reports the bytes already written). -/

structure SynthesisConfig where
  speaker_id : Option Nat := none
  length_scale : Rat := 1
  noise_scale : Rat := 1
  noise_w_scale : Rat := 1
  normalize_audio : Bool := true
  volume : Rat := 1
deriving DecidableEq, Repr

/-- A loaded `PiperVoice` object: the arguments `PiperVoice.load` was invoked
with, plus an opaque engine payload.  Immutable once constructed. -/
structure PiperVoice where
  modelPath : String
  configPath : Option String
  useCuda : Bool
  engineData : Nat
deriving DecidableEq, Repr

/-- Result of `PiperVoice.synthesize_wav`: success with the audio bytes, or a
failure partway through, reporting the bytes already written into the open
wave file before the exception. -/
inductive SynthOutcome where
  | ok (audio : File)
  | failed (written : File) (msg : String)

/-- The external engine, as an oracle. -/
structure Engine where
  loadVoice : String → Option String → Bool → Except String Nat
  synthWav : Nat → String → Option SynthesisConfig → SynthOutcome

/-! ## `PiperPythonWrapper` (piper_python_wrapper.py) -/

/-- The mutable attributes of a `PiperPythonWrapper` instance. -/
structure WrapperState where
  voice : Option PiperVoice
  model_path : Option String
  use_cuda : Bool
  syn_config : Option SynthesisConfig
deriving DecidableEq, Repr

/-- `PiperPythonWrapper.__init__`. -/
def initialState : WrapperState :=
  { voice := none, model_path := none, use_cuda := false, syn_config := none }

/-- `PiperPythonWrapper.load_voice(model_path="models/default.onnx",
config_path=None)`.  On engine success it assigns `self.voice` and
`self.model_path = str(model_path)` (paths are strings here, so `str` is the
identity); on engine failure it logs and re-raises without assigning
anything, returning the error. -/
def load_voice (w : WrapperState) (e : Engine)
    (model_path : String := "models/default.onnx")
    (config_path : Option String := none) :
    WrapperState × Except String Unit :=
  match e.loadVoice model_path config_path w.use_cuda with
  | .ok d =>
    ({ w with
        voice := some ⟨model_path, config_path, w.use_cuda, d⟩,
        model_path := some model_path },
      .ok ())
  | .error msg => (w, .error msg)

/-- `PiperPythonWrapper.set_syn_config`. -/
def set_syn_config (w : WrapperState) (cfg : SynthesisConfig) : WrapperState :=
  { w with syn_config := some cfg }

/-- `PiperPythonWrapper.set_use_cuda`. -/
def set_use_cuda (w : WrapperState) (b : Bool) : WrapperState :=
  { w with use_cuda := b }

/-- `PiperPythonWrapper.get_use_cuda`. -/
def get_use_cuda (w : WrapperState) : Bool :=
  w.use_cuda

/-- `PiperPythonWrapper.is_voice_loaded`. -/
def is_voice_loaded (w : WrapperState) : Bool :=
  w.voice.isSome

/-- `PiperPythonWrapper.synthesize_wav_from_string(text, output_path)`.
If no voice is loaded it raises `ValueError` before touching the filesystem.
Otherwise `wave.open(str(output_path), "wb")` creates (or truncates) the
output file, and the engine writes into it; an engine exception propagates
after the `with` block closes the file, leaving the bytes written so far on
disk (no cleanup is performed). -/
def synthesize_wav_from_string (w : WrapperState) (e : Engine) (fs : FS)
    (text : String) (output_path : String := "static/audio/output.wav") :
    WrapperState × FS × Except String Unit :=
  match w.voice with
  | none => (w, fs, .error "No voice loaded. Call load_voice() first.")
  | some v =>
    let fs1 := FS.write fs output_path []
    match e.synthWav v.engineData text w.syn_config with
    | .ok audio => (w, FS.write fs1 output_path audio, .ok ())
    | .failed written msg => (w, FS.write fs1 output_path written, .error msg)

/-! ## HTTP handlers (app.py)

Each handler is modelled as a pure function of the global wrapper state
(`tts_wrapper`, `none` when `initialize()` has not run), the filesystem, the
clock reading `int(time.time())`, and the parsed JSON body (`none` when
`request.get_json()` returned `None`).  Each returns the new global state,
the new filesystem (where relevant) and the JSON response. -/

/-- JSON response of `GET /api/status`.  `model_path` is `none` for JSON
`null` (the wrapper attribute is Python `None` until the first successful
load) and `some s` for a string. -/
structure StatusResponse where
  voice_loaded : Bool
  model_path : Option String
  models_available : Nat
  cuda_enabled : Bool
deriving DecidableEq, Repr

/-- `api_status` (`GET /api/status`): reads the wrapper state and the count
of discoverable model files (the `get_model_files()` directory scan, an
external collaborator passed in as `models_available`). -/
def api_status (tw : Option WrapperState) (models_available : Nat) :
    StatusResponse :=
  match tw with
  | none =>
    { voice_loaded := false, model_path := some "", models_available := 0,
      cuda_enabled := false }
  | some w =>
    { voice_loaded := is_voice_loaded w, model_path := w.model_path,
      models_available := models_available, cuda_enabled := get_use_cuda w }

/-- Parsed JSON body of `POST /api/load_model`; `use_cuda` already carries
the `data.get('use_cuda', False)` default. -/
structure LoadRequest where
  model_path : Option String
  use_cuda : Bool := false
deriving DecidableEq, Repr

/-- JSON response of `POST /api/load_model`. -/
structure LoadResponse where
  success : Bool
  model_path : Option String := none
  cuda_enabled : Option Bool := none
  error : Option String := none
deriving DecidableEq, Repr

/-- `api_load_model` (`POST /api/load_model`): validates the body, checks
`Path(model_path).exists()`, sets the CUDA preference, then loads the model;
a `load_voice` exception is caught and turned into an error response (the
CUDA preference was already set by then). -/
def api_load_model (tw : Option WrapperState) (e : Engine) (fs : FS)
    (body : Option LoadRequest) : Option WrapperState × LoadResponse :=
  match tw with
  | none => (none, { success := false, error := some "tts wrapper not initialized" })
  | some w =>
    match body with
    | none => (some w, { success := false, error := some "get_json returned None" })
    | some req =>
      match req.model_path with
      | none => (some w, { success := false, error := some "No model path provided" })
      | some mp =>
        if mp = "" then
          (some w, { success := false, error := some "No model path provided" })
        else if FS.existsAt fs mp = false then
          (some w, { success := false, error := some "Model file not found" })
        else
          let w1 := set_use_cuda w req.use_cuda
          match load_voice w1 e mp none with
          | (w2, .ok ()) =>
            (some w2,
              { success := true, model_path := some mp,
                cuda_enabled := some req.use_cuda })
          | (w2, .error msg) =>
            (some w2, { success := false, error := some msg })

/-- Parsed JSON body of `POST /api/generate`. -/
structure GenRequest where
  text : Option String
deriving DecidableEq, Repr

/-- JSON response of `POST /api/generate`. -/
structure GenResponse where
  success : Bool
  audio_url : Option String := none
  filename : Option String := none
  file_size : Option Nat := none
  error : Option String := none
deriving DecidableEq, Repr

/-- `api_generate` (`POST /api/generate`): strips the text, checks that a
voice is loaded, derives the output filename from the clock reading `now =
int(time.time())` as `tts_output_{now}.wav` under `static/audio/`, runs the
synthesis, and stats the written file for its size.  Exceptions from
synthesis are caught and become error responses. -/
def api_generate (tw : Option WrapperState) (e : Engine) (now : Nat)
    (body : Option GenRequest) (fs : FS) :
    Option WrapperState × FS × GenResponse :=
  match tw with
  | none => (none, fs, { success := false, error := some "tts wrapper not initialized" })
  | some w =>
    match body with
    | none => (some w, fs, { success := false, error := some "get_json returned None" })
    | some req =>
      let text := pyStrip (req.text.getD "")
      if is_voice_loaded w = false then
        (some w, fs, { success := false, error := some "No voice model loaded" })
      else
        let filename := "tts_output_" ++ toString now ++ ".wav"
        let output_path := pathJoin "static/audio" filename
        match synthesize_wav_from_string w e fs text output_path with
        | (w2, fs2, .ok ()) =>
          match FS.read fs2 output_path with
          | some c =>
            (some w2, fs2,
              { success := true, audio_url := some ("/audio/" ++ filename),
                filename := some filename, file_size := some c.length })
          | none =>
            (some w2, fs2, { success := false, error := some "stat failed" })
        | (w2, fs2, .error msg) =>
          (some w2, fs2, { success := false, error := some msg })

/-- Result of `GET /audio/<filename>`: the served file (with the canonical
absolute path the OS resolved it to) or a 404. -/
inductive ServeResult where
  | file (path : String) (content : File)
  | notFound
deriving DecidableEq, Repr

/-- `serve_audio` (`GET /audio/<filename>`): `file_path = Path("static/audio")
/ filename`, then an existence check and `send_file(file_path)`.  No
canonicalisation or containment check is performed on `filename`. -/
def serve_audio (fs : FS) (filename : String) : ServeResult :=
  let file_path := pathJoin "static/audio" filename
  match FS.read fs file_path with
  | some c => ServeResult.file (absPath file_path) c
  | none => ServeResult.notFound

/-- The canonical absolute path of the artifact output directory. -/
def outputDir : String := absPath "static/audio"

/-! ## Reachable wrapper states

States of the global `tts_wrapper` produced by `initialize()` followed by
any sequence of wrapper method calls. -/

inductive Reachable : WrapperState → Prop where
  | init : Reachable initialState
  | load (w : WrapperState) (e : Engine) (p : String) (c : Option String) :
      Reachable w → Reachable (load_voice w e p c).1
  | setCuda (w : WrapperState) (b : Bool) :
      Reachable w → Reachable (set_use_cuda w b)
  | setConfig (w : WrapperState) (cfg : SynthesisConfig) :
      Reachable w → Reachable (set_syn_config w cfg)
  | synth (w : WrapperState) (e : Engine) (fs : FS) (t o : String) :
      Reachable w → Reachable (synthesize_wav_from_string w e fs t o).1

/-! ## Concrete fixtures for witnesses and counterexamples -/

/-- A wrapper state with the default voice loaded. -/
def w0 : WrapperState :=
  { voice := some ⟨"models/default.onnx", none, false, 0⟩,
    model_path := some "models/default.onnx",
    use_cuda := false, syn_config := none }

/-- An engine for which loading and synthesis always succeed. -/
def okEngine : Engine :=
  { loadVoice := fun _ _ _ => .ok 0,
    synthWav := fun _ _ _ => .ok [82, 73, 70, 70] }

/-- An engine for which loading fails and synthesis fails after writing two
bytes. -/
def failEngine : Engine :=
  { loadVoice := fun _ _ _ => .error "model load failed",
    synthWav := fun _ _ _ => .failed [1, 2] "synthesis failed" }

/-- First `/api/generate` request arriving at second 5. -/
def genCall1 : Option WrapperState × FS × GenResponse :=
  api_generate (some w0) okEngine 5 (some ⟨some "hello"⟩) []

/-- Second `/api/generate` request arriving within the same second. -/
def genCall2 : Option WrapperState × FS × GenResponse :=
  api_generate genCall1.1 okEngine 5 (some ⟨some "world"⟩) genCall1.2.1

/-- A filesystem holding a secret file outside the artifact directory. -/
def passwdFS : FS := [("/srv/app/etc/passwd", [114, 111, 111, 116])]

/-- The run of `synthesize_wav_from_string` on `w0` with the failing
engine, over an empty filesystem. -/
def failSynthRun : WrapperState × FS × Except String Unit :=
  synthesize_wav_from_string w0 failEngine [] "hello"
    "static/audio/tts_output_5.wav"

/-! ## Helper lemmas -/

theorem FS.write_write (fs : FS) (p : String) (c1 c2 : File) :
    FS.write (FS.write fs p c1) p c2 = FS.write fs p c2 := by
  simp [FS.write, List.filter_filter]

theorem FS.read_write (fs : FS) (p : String) (c : File) :
    FS.read (FS.write fs p c) p = some c := by
  simp [FS.read, FS.write]

theorem synth_preserves_state (w : WrapperState) (e : Engine) (fs : FS)
    (t o : String) : (synthesize_wav_from_string w e fs t o).1 = w := by
  cases hv : w.voice with
  | none => simp [synthesize_wav_from_string, hv]
  | some v =>
    cases he : e.synthWav v.engineData t w.syn_config <;>
      simp [synthesize_wav_from_string, hv, he]

/-- In every reachable wrapper state, if no voice is loaded then
`model_path` is still `None`: the two fields are only ever assigned
together, by a successful `load_voice`. -/
theorem reachable_model_path_none {w : WrapperState} (hr : Reachable w) :
    w.voice = none → w.model_path = none := by
  induction hr with
  | init => intro _; rfl
  | load w e p c _ ih =>
    intro hv
    cases hl : e.loadVoice p c w.use_cuda with
    | ok d => simp [load_voice, hl] at hv
    | error msg => simp [load_voice, hl] at hv ⊢; exact ih hv
  | setCuda w b _ ih =>
    intro hv
    simp [set_use_cuda] at hv ⊢
    exact ih hv
  | setConfig w cfg _ ih =>
    intro hv
    simp [set_syn_config] at hv ⊢
    exact ih hv
  | synth w e fs t o _ ih =>
    intro hv
    rw [synth_preserves_state] at hv ⊢
    exact ih hv

/-! ## Claim theorems -/

/-- C1: artifact filenames are derived solely from `int(time.time())`, so two
`api_generate` requests handled within the same wall-clock second (here
second 5) both succeed and are given the SAME filename
`tts_output_5.wav` — the second silently overwrites the first artifact, so N
reservation calls within one second do not yield N distinct paths. -/
theorem generate_same_second_collision :
    genCall1.2.2.success = true ∧
    genCall2.2.2.success = true ∧
    genCall1.2.2.filename = some "tts_output_5.wav" ∧
    genCall2.2.2.filename = some "tts_output_5.wav" := by
  decide

/-- C2: `serve_audio` joins `static/audio` with the request filename and
serves the result after a bare existence check, with no canonicalisation or
containment check; the traversal filename `../../etc/passwd` resolves to
`/srv/app/etc/passwd`, outside the output directory, and its contents are
served. -/
theorem serve_audio_traversal_escape :
    serve_audio passwdFS "../../etc/passwd" =
      ServeResult.file "/srv/app/etc/passwd" [114, 111, 111, 116] ∧
    strHasPrefix outputDir "/srv/app/etc/passwd" = false := by
  decide

/-- C3: a failed load leaves the whole wrapper state unchanged.  When the
engine's `PiperVoice.load` raises (nonexistent model path or any load
error), `load_voice` re-raises without assigning any field; and
`api_load_model` on a nonexistent model path returns "Model file not found"
before mutating anything. -/
theorem load_voice_failure_atomic (w : WrapperState) (e : Engine)
    (p : String) (c : Option String) (msg : String) (fs : FS) (u : Bool)
    (h1 : e.loadVoice p c w.use_cuda = .error msg)
    (h2 : FS.existsAt fs p = false) (h3 : ¬ p = "") :
    load_voice w e p c = (w, .error msg) ∧
    api_load_model (some w) e fs (some ⟨some p, u⟩) =
      (some w, { success := false, error := some "Model file not found" }) := by
  constructor
  · simp [load_voice, h1]
  · simp [api_load_model, h2, h3]

theorem load_voice_failure_atomic_witness :
    load_voice initialState failEngine "missing.onnx" none =
      (initialState, .error "model load failed") ∧
    api_load_model (some initialState) failEngine []
        (some ⟨some "missing.onnx", false⟩) =
      (some initialState,
        { success := false, error := some "Model file not found" }) :=
  load_voice_failure_atomic initialState failEngine "missing.onnx" none
    "model load failed" [] false rfl rfl (by decide)

/-- C4: with no voice loaded, `synthesize_wav_from_string` raises the
no-voice-loaded `ValueError` before touching the filesystem, and
`api_generate` answers "No voice model loaded" before even deriving an
output path; in both cases the filesystem is returned unchanged. -/
theorem synthesize_no_voice_no_write (w : WrapperState) (e : Engine)
    (fs : FS) (text out : String) (now : Nat) (h : w.voice = none) :
    synthesize_wav_from_string w e fs text out =
      (w, fs, .error "No voice loaded. Call load_voice() first.") ∧
    api_generate (some w) e now (some ⟨some text⟩) fs =
      (some w, fs, { success := false, error := some "No voice model loaded" }) := by
  constructor
  · simp [synthesize_wav_from_string, h]
  · simp [api_generate, is_voice_loaded, h]

theorem synthesize_no_voice_no_write_witness :
    synthesize_wav_from_string initialState okEngine [] "hello" "o.wav" =
      (initialState, [], .error "No voice loaded. Call load_voice() first.") ∧
    api_generate (some initialState) okEngine 5 (some ⟨some "hello"⟩) [] =
      (some initialState, [],
        { success := false, error := some "No voice model loaded" }) :=
  synthesize_no_voice_no_write initialState okEngine [] "hello" "o.wav" 5 rfl

/-- C5 counterexample: the claim "no partially written artifact file
remains" is false.  With a voice loaded and an engine that fails after
writing two bytes, `synthesize_wav_from_string` raises, yet the two-byte
file remains at the reserved path and `serve_audio` serves it. -/
theorem synth_failure_leaves_partial_file :
    failSynthRun.2.2 = .error "synthesis failed" ∧
    FS.read failSynthRun.2.1 "static/audio/tts_output_5.wav" = some [1, 2] ∧
    serve_audio failSynthRun.2.1 "tts_output_5.wav" =
      ServeResult.file "/srv/app/static/audio/tts_output_5.wav" [1, 2] :=
  ⟨rfl, by decide, by decide⟩

/-- C5 amended: if the engine fails partway, the partially written bytes
remain in a file at the output path (`wave.open(..., "wb")` created it
before synthesis began and no cleanup runs on failure), the error
propagates, and the partial file exists for the artifact lookup path. -/
theorem synth_failure_partial_file_remains (w : WrapperState) (e : Engine)
    (fs : FS) (text out : String) (v : PiperVoice) (written : File)
    (msg : String) (hv : w.voice = some v)
    (he : e.synthWav v.engineData text w.syn_config = .failed written msg) :
    synthesize_wav_from_string w e fs text out =
      (w, FS.write fs out written, .error msg) ∧
    FS.existsAt (FS.write fs out written) out = true := by
  constructor
  · simp [synthesize_wav_from_string, hv, he, FS.write_write]
  · simp [FS.existsAt, FS.read_write]

theorem synth_failure_partial_file_remains_witness :
    synthesize_wav_from_string w0 failEngine [] "hello" "out.wav" =
      (w0, FS.write [] "out.wav" [1, 2], .error "synthesis failed") ∧
    FS.existsAt (FS.write [] "out.wav" [1, 2]) "out.wav" = true :=
  synth_failure_partial_file_remains w0 failEngine [] "hello" "out.wav"
    ⟨"models/default.onnx", none, false, 0⟩ [1, 2] "synthesis failed" rfl rfl

/-- C6: with a voice loaded, `synthesize_wav_from_string` accepts any text —
including the empty string and whitespace-only strings — with no
special-casing: the engine is invoked with exactly the caller-supplied text,
and the artifact written at the output path is exactly the engine's audio
for that text. -/
theorem synthesize_forwards_text (w : WrapperState) (e : Engine) (fs : FS)
    (text out : String) (v : PiperVoice) (audio : File)
    (hv : w.voice = some v)
    (he : e.synthWav v.engineData text w.syn_config = .ok audio) :
    synthesize_wav_from_string w e fs text out =
      (w, FS.write fs out audio, .ok ()) := by
  simp [synthesize_wav_from_string, hv, he, FS.write_write]

theorem synthesize_forwards_text_witness :
    synthesize_wav_from_string w0 okEngine [] "" "out.wav" =
      (w0, FS.write [] "out.wav" [82, 73, 70, 70], .ok ()) :=
  synthesize_forwards_text w0 okEngine [] "" "out.wav"
    ⟨"models/default.onnx", none, false, 0⟩ [82, 73, 70, 70] rfl rfl

/-- C7 counterexample: in the initialised-but-unloaded state the status
report's `model_path` is `None` (JSON `null`), not the empty string the
claim demands. -/
theorem status_unloaded_model_path_not_empty :
    initialState.voice = none ∧
    (api_status (some initialState) 0).model_path = none ∧
    ¬ (api_status (some initialState) 0).model_path = some "" := by
  decide

/-- C7 amended: the status report is a pure function of the wrapper state
and the external directory-scan count: it reports whether a voice is loaded,
the stored model path — which is `None` (JSON `null`), not the empty string,
in every reachable state in which no voice has been loaded — the model
count, and the current acceleration preference. -/
theorem api_status_pure_report (w : WrapperState) (n : Nat)
    (hr : Reachable w) (hv : w.voice = none) :
    api_status (some w) n =
      { voice_loaded := is_voice_loaded w, model_path := w.model_path,
        models_available := n, cuda_enabled := get_use_cuda w } ∧
    api_status (some w) n =
      { voice_loaded := false, model_path := none, models_available := n,
        cuda_enabled := get_use_cuda w } := by
  have hm := reachable_model_path_none hr hv
  constructor
  · rfl
  · simp [api_status, is_voice_loaded, get_use_cuda, hv, hm]

theorem api_status_pure_report_witness :
    api_status (some initialState) 0 =
      { voice_loaded := is_voice_loaded initialState,
        model_path := initialState.model_path, models_available := 0,
        cuda_enabled := get_use_cuda initialState } ∧
    api_status (some initialState) 0 =
      { voice_loaded := false, model_path := none, models_available := 0,
        cuda_enabled := false } :=
  api_status_pure_report initialState 0 Reachable.init rfl

/-- C8: `set_use_cuda` always succeeds and replaces only the `use_cuda`
field; the already-loaded handle is the very same immutable `PiperVoice`
value afterwards (so its load-time acceleration mode is untouched); and the
next `load_voice` constructs its handle with the preference current at load
time. -/
theorem set_use_cuda_frame (w : WrapperState) (b : Bool) (v : PiperVoice)
    (e : Engine) (p : String) (c : Option String) (d : Nat)
    (hv : w.voice = some v) (hl : e.loadVoice p c b = .ok d) :
    set_use_cuda w b = { w with use_cuda := b } ∧
    (set_use_cuda w b).voice = some v ∧
    (load_voice (set_use_cuda w b) e p c).1.voice = some ⟨p, c, b, d⟩ := by
  refine ⟨rfl, ?_, ?_⟩
  · simp [set_use_cuda, hv]
  · simp [load_voice, set_use_cuda, hl]

theorem set_use_cuda_frame_witness :
    set_use_cuda w0 true = { w0 with use_cuda := true } ∧
    (set_use_cuda w0 true).voice =
      some ⟨"models/default.onnx", none, false, 0⟩ ∧
    (load_voice (set_use_cuda w0 true) okEngine "models/en.onnx" none).1.voice =
      some ⟨"models/en.onnx", none, true, 0⟩ :=
  set_use_cuda_frame w0 true ⟨"models/default.onnx", none, false, 0⟩
    okEngine "models/en.onnx" none 0 rfl rfl

/-- C9: `synthesize_wav_from_string` never mutates the wrapper state:
whether it raises (no voice loaded, engine failure) or succeeds, the
returned state — voice handle, model path, CUDA flag and synthesis
configuration — is the state it was called with. -/
theorem synthesize_preserves_wrapper_state (w : WrapperState) (e : Engine)
    (fs : FS) (text out : String) :
    (synthesize_wav_from_string w e fs text out).1 = w := by
  cases hv : w.voice with
  | none => simp [synthesize_wav_from_string, hv]
  | some v =>
    cases he : e.synthWav v.engineData text w.syn_config <;>
      simp [synthesize_wav_from_string, hv, he]

/-- C10: `load_voice` called without arguments loads
`models/default.onnx` with `config_path` auto-detected (`None`), and every
successful load stores `str(model_path)` — the requested path itself, since
paths are strings — so `model_path` afterwards equals the requested path,
with the new handle installed and success returned. -/
theorem load_voice_defaults_and_sets_path (w : WrapperState) (e : Engine)
    (p : String) (c : Option String) (d : Nat)
    (h : e.loadVoice p c w.use_cuda = .ok d) :
    load_voice w e = load_voice w e "models/default.onnx" none ∧
    (load_voice w e p c).1.model_path = some p ∧
    (load_voice w e p c).1.voice = some ⟨p, c, w.use_cuda, d⟩ ∧
    (load_voice w e p c).2 = .ok () := by
  refine ⟨rfl, ?_, ?_, ?_⟩ <;> simp [load_voice, h]

theorem load_voice_defaults_and_sets_path_witness :
    load_voice initialState okEngine =
      load_voice initialState okEngine "models/default.onnx" none ∧
    (load_voice initialState okEngine "models/en.onnx"
        (some "models/en.onnx.json")).1.model_path = some "models/en.onnx" ∧
    (load_voice initialState okEngine "models/en.onnx"
        (some "models/en.onnx.json")).1.voice =
      some ⟨"models/en.onnx", some "models/en.onnx.json", false, 0⟩ ∧
    (load_voice initialState okEngine "models/en.onnx"
        (some "models/en.onnx.json")).2 = .ok () :=
  load_voice_defaults_and_sets_path initialState okEngine "models/en.onnx"
    (some "models/en.onnx.json") 0 rfl
